import Mathlib

/-! Verification of the text-to-audio synthesis engine.

Shallow embedding of `src/utils/audioGenerator.ts`: the description parser
(keyword-substring matching and the `(\d+)\s*bpm` tempo regex), the four
layer synthesizers (percussion, harmony, bass, melody) modelled as the
lists of scheduled audio-graph events they create, the random-stream
threading for the sites that call `Math.random()` (reverb impulse, snare
noise, melody gating/note choice), and the WAV encoder `bufferToWav`.

Strings are modelled as their character lists (the sources are ASCII, so
JS UTF-16 code-unit operations coincide with `Char` operations).
Sample values and times are rationals; an oscillator frequency
`baseFreq * 2^(semitone/12)` is represented by the pair
(`baseFreq`, `semitone`), which determines it injectively.
-/

namespace AudioGen

/-- Boolean test that `pat` is an initial segment of `l`
(character-by-character comparison, as JS string search does). -/
def prefixAt : List Char → List Char → Bool
  | [], _ => true
  | _ :: _, [] => false
  | a :: as, b :: bs => a == b && prefixAt as bs

/-- Scan of every suffix of `l` for an occurrence of `pat`. -/
def containsAux (pat : List Char) : List Char → Bool
  | [] => prefixAt pat []
  | c :: rest => prefixAt pat (c :: rest) || containsAux pat rest

/-- Models `String.prototype.includes`: substring membership. -/
def strIncludes (s : List Char) (pat : String) : Bool :=
  containsAux pat.data s

/-- Models `description.toLowerCase()` on the ASCII inputs: lowercases
character by character (`String.toLower` is the same map, but this form
reduces inside the kernel). -/
def lowerData (s : String) : List Char :=
  s.data.map Char.toLower

/-- The characters matched by `\s` in the JS regex `(\d+)\s*bpm`
(ASCII whitespace; the Unicode space classes cannot occur between
an ASCII digit run and the ASCII literal `bpm` in the inputs considered). -/
def isSpaceJS (c : Char) : Bool :=
  c == ' ' || c == '\t' || c == '\n' || c == '\r' || c == '\x0b' || c == '\x0c'

/-- Decimal value of a digit run, as `parseInt(digits, 10)` computes it. -/
def digitsToNat (ds : List Char) : Nat :=
  List.foldl (fun n c => 10 * n + (c.toNat - 48)) 0 ds

/-- Leftmost match of the regex `(\d+)\s*bpm`, returning the parsed capture
group. The scan tries each start position left to right; at a digit it
takes the maximal digit run, then any whitespace, then requires the
literal `bpm` (greedy matching never needs to backtrack here, because a
shorter digit run leaves a digit where `\s*bpm` must start, and a shorter
whitespace run leaves whitespace where `b` must be). -/
def bpmScan : List Char → Option Nat
  | [] => none
  | c :: rest =>
    if c.isDigit then
      let run := List.takeWhile Char.isDigit (c :: rest)
      let after := List.dropWhile Char.isDigit (c :: rest)
      let after2 := List.dropWhile isSpaceJS after
      if prefixAt ['b', 'p', 'm'] after2 then
        some (digitsToNat run)
      else bpmScan rest
    else bpmScan rest

/-- Models `lowerDesc.match(/(\d+)\s*bpm/)` followed by `parseInt` on the
capture group. -/
def bpmFirstMatch (s : List Char) : Option Nat :=
  bpmScan s

/-- The WebAudio `OscillatorType` values the generator uses. -/
inductive OscType where
  | sine
  | square
  | sawtooth
  | triangle
deriving DecidableEq, Repr

/-- The synthesis parameters `generateAudioPreview` derives from the
description before building the audio graph (its local bindings `bpm`,
`scale`, `isMinor`, `chordProgression`, the four layer guards of lines
223–234, the effect guards of lines 38–49, and the per-layer oscillator
type choices). -/
structure SynthParams where
  bpm : Nat
  scale : List Int
  isMinor : Bool
  chordProgression : List (List Int)
  enableDrums : Bool
  enableHarmony : Bool
  enableBass : Bool
  enableMelody : Bool
  enableReverb : Bool
  enableDelay : Bool
  harmonyOsc : OscType
  bassOsc : OscType
  melodyOsc : OscType
  /-- Value of `lowerDesc.includes('heartbeat')`, read by `createDrums` (lines 85, 99). -/
  hasHeartbeat : Bool
  /-- Value of `lowerDesc.includes('string')`, read by `createHarmony` (line 135). -/
  hasString : Bool
  /-- Value of `lowerDesc.includes('detuned')`, read by `createMelody` (line 198). -/
  melodyDetuned : Bool
  /-- Value of `lowerDesc.includes('piano') || lowerDesc.includes('bell')`, the
  envelope switch of `createMelody` (line 207). -/
  melodyLongEnv : Bool
deriving DecidableEq, Repr

/-- The parameter-extraction phase of `generateAudioPreview`
(`src/utils/audioGenerator.ts` lines 35–70, 127–129, 160–161, 182–184,
223–234), as a pure function of the description. Each sequential
`if`-override of the source is one `let` step. -/
def parse (description : String) : SynthParams :=
  let lowerDesc := lowerData description
  let inc : String → Bool := fun pat => strIncludes lowerDesc pat
  let bpm : Nat :=
    match bpmFirstMatch lowerDesc with
    | some n => n
    | none =>
      let b0 := 120
      let b1 := if inc "slow" then 80 else b0
      if inc "fast" || inc "upbeat" then 140 else b1
  let scale0 : List Int := [0, 2, 4, 5, 7, 9, 11]
  let scale1 := if inc "minor" then [0, 2, 3, 5, 7, 8, 10] else scale0
  let scale2 := if inc "dissonant" || inc "atonal" then [0, 1, 4, 5, 8, 9] else scale1
  let scale := if inc "pentatonic" then [0, 2, 4, 7, 9] else scale2
  let isMinor := inc "minor"
  let chordProgression : List (List Int) :=
    if isMinor then [[0, 3, 7], [8, 0, 3], [3, 7, 10], [10, 2, 5]]
    else [[0, 4, 7], [7, 11, 2], [9, 0, 4], [5, 9, 0]]
  let harmonyOsc :=
    let t0 := OscType.sawtooth
    let t1 := if inc "choir" || inc "soft" then OscType.sine else t0
    if inc "synth" then OscType.square else t1
  let bassOsc := if inc "rumble" || inc "drone" then OscType.sine else OscType.square
  let melodyOsc :=
    let t0 := OscType.triangle
    let t1 :=
      if inc "bell" || inc "music box" || inc "glockenspiel" then OscType.sine else t0
    if inc "piano" then OscType.sine else t1
  { bpm := bpm
    scale := scale
    isMinor := isMinor
    chordProgression := chordProgression
    enableDrums := inc "drum" || inc "beat" || inc "percussion" || inc "heartbeat"
    enableHarmony := inc "pad" || inc "string" || inc "choir" || inc "chord"
    enableBass := inc "bass" || inc "drone" || inc "rumble"
    enableMelody :=
      inc "melody" || inc "piano" || inc "bell" || inc "music box" || inc "glockenspiel"
    enableReverb := inc "reverb"
    enableDelay := inc "delay"
    harmonyOsc := harmonyOsc
    bassOsc := bassOsc
    melodyOsc := melodyOsc
    hasHeartbeat := inc "heartbeat"
    hasString := inc "string"
    melodyDetuned := inc "detuned"
    melodyLongEnv := inc "piano" || inc "bell" }

/-! ## Shared synthesis constants (lines 10–11, 71) -/

def duration : Nat := 10

def sampleRate : Nat := 44100

def baseFreq : ℚ := 220

/-- Models `beatDuration = 60 / bpm` (line 60). -/
def beatDuration (bpm : Nat) : ℚ := 60 / (bpm : ℚ)

/-- Iteration count of the drum loop `for (i = 0; i < duration/beatDuration; i++)`
(line 81): the naturals below `bpm/6`, i.e. `⌈bpm/6⌉`.  (For `bpm = 0` the JS
bound is `10/∞ = 0` and the loop body never runs; the formula gives 0.) -/
def numBeats (bpm : Nat) : Nat := (bpm + 5) / 6

/-- Iteration count of the melody loop
`for (i = 0; i < duration/(beatDuration/2); i++)` (line 186): the naturals
below `bpm/3`, i.e. `⌈bpm/3⌉`. -/
def numHalfBeats (bpm : Nat) : Nat := (bpm + 2) / 3

/-! ## Layer synthesizers as audio-graph event lists

An oscillator's frequency is always `base * 2^(semitone/12)` for a base of
220 (harmony, melody) or 110 (bass); since `x ↦ base * 2^(x/12)` is
injective, an event records the pair instead of the real frequency. -/

/-- One oscillator scheduled by the harmony or bass layer. -/
structure OscEvent where
  start : ℚ
  stop : ℚ
  oscType : OscType
  detune : Int
  baseFreq : ℚ
  semitone : Int
deriving DecidableEq, Repr

/-- The detune values for which `createHarmony` actually creates an
oscillator for one chord note (lines 135–137): the source iterates over
`[-detuneAmount, 0, detuneAmount]` and skips an entry iff
`detune === 0 && detuneAmount !== 0`. -/
def harmonyDetunes (hasString : Bool) : List Int :=
  let detuneAmount : Int := if hasString then 5 else 0
  [-detuneAmount, 0, detuneAmount].filter
    (fun detune => !(detune == 0 && !(detuneAmount == 0)))

/-- The oscillators `createHarmony` creates for one chord note sounding
at `time` (lines 133–147): one per entry of `harmonyDetunes`, at
frequency `baseFreq * 2^((noteOffset + scale[0]) / 12)`, held 4 beats. -/
def harmonyNoteOscs (p : SynthParams) (time : ℚ) (noteOffset : Int) :
    List OscEvent :=
  (harmonyDetunes p.hasString).map (fun detune =>
    { start := time
      stop := time + beatDuration p.bpm * 4
      oscType := p.harmonyOsc
      detune := detune
      baseFreq := baseFreq
      semitone := noteOffset + p.scale.headI })

/-- The oscillators scheduled by `createHarmony` (lines 119–149):
chord `i` sounds from `i * beatDuration * 4`, each note offset spawning
`harmonyNoteOscs`. -/
def harmonyEvents (p : SynthParams) : List OscEvent :=
  p.chordProgression.enum.flatMap (fun ic =>
    ic.2.flatMap (fun noteOffset =>
      harmonyNoteOscs p ((ic.1 : ℚ) * beatDuration p.bpm * 4) noteOffset))

/-- The oscillators scheduled by `createBass` (lines 152–174): one per
chord, at the chord root an octave below the harmony base
(`(baseFreq/2) * 2^((rootNote + scale[0]) / 12)`), held for 4 beats. -/
def bassEvents (p : SynthParams) : List OscEvent :=
  p.chordProgression.enum.map (fun ic =>
    let time := (ic.1 : ℚ) * beatDuration p.bpm * 4
    { start := time
      stop := time + beatDuration p.bpm * 4
      oscType := p.bassOsc
      detune := 0
      baseFreq := baseFreq / 2
      semitone := ic.2.headI + p.scale.headI })

/-! ## Randomness

`Math.random()` is modelled as reading successive values of an abstract
stream `Nat → ℚ` (each call returns the next value); a cursor threaded in
the source's execution order assigns each call site its indices.  The
call sites are: the reverb impulse (lines 23–28, always runs first), the
snare noise buffers (line 104), and the melody gate / note choice
(lines 191–192). -/

/-- A source of `Math.random()` values. -/
def RandStream : Type := Nat → ℚ

/-- Sample count `sampleRate * 0.2` of a snare noise buffer (line 103). -/
def snareLen : Nat := 8820

/-- One drum event scheduled by `createDrums`: a kick oscillator or a
snare noise burst carrying its noise samples. -/
inductive DrumEvent where
  | kick (start : ℚ)
  | snare (start : ℚ) (noise : Nat → ℚ)

/-- The events scheduled by `createDrums` (lines 76–116), threading the
random cursor: beat `i` gets a kick when `i % 2 == 0` or heartbeat mode,
and a snare when `i % 2 !== 0` and not heartbeat mode; each snare fills a
`snareLen`-sample buffer with `Math.random() * 2 - 1`. -/
def drumEvents (p : SynthParams) (s : RandStream) (cur : Nat) :
    List DrumEvent × Nat :=
  (List.range (numBeats p.bpm)).foldl
    (fun (acc : List DrumEvent × Nat) (i : Nat) =>
      let time := (i : ℚ) * beatDuration p.bpm
      let acc1 :=
        if i % 2 == 0 || p.hasHeartbeat then
          (acc.1 ++ [DrumEvent.kick time], acc.2)
        else acc
      if i % 2 != 0 && !p.hasHeartbeat then
        (acc1.1 ++ [DrumEvent.snare time (fun j => 2 * s (acc1.2 + j) - 1)],
         acc1.2 + snareLen)
      else acc1)
    ([], cur)

/-- One melody note scheduled by `createMelody` (the chord variables of
lines 188–189 are computed but never used for the pitch, which comes from
the scale alone). -/
structure MelodyEvent where
  start : ℚ
  oscType : OscType
  detune : Int
  semitone : Int
  attack : ℚ
  decayTime : ℚ
deriving DecidableEq, Repr

/-- The events scheduled by `createMelody` (lines 177–220), threading the
random cursor: at each half beat one draw gates the note
(`Math.random() > 0.3`); on success a second draw picks
`Math.floor(Math.random() * scale.length)` (in range for stream values in
`[0,1)`; out-of-range indices read the `getD` default, a case the source
cannot hit). -/
def melodyEvents (p : SynthParams) (s : RandStream) (cur : Nat) :
    List MelodyEvent × Nat :=
  (List.range (numHalfBeats p.bpm)).foldl
    (fun (acc : List MelodyEvent × Nat) (i : Nat) =>
      let time := (i : ℚ) * (beatDuration p.bpm / 2)
      let gate := s acc.2
      if gate > 3 / 10 then
        let r := s (acc.2 + 1)
        let noteIndex := (⌊r * (p.scale.length : ℚ)⌋).toNat
        let note := p.scale.getD noteIndex 0 + 12
        (acc.1 ++
          [{ start := time
             oscType := p.melodyOsc
             detune := if p.melodyDetuned then -25 else 0
             semitone := note
             attack := if p.melodyLongEnv then 1 / 100 else 1 / 20
             decayTime :=
               if p.melodyLongEnv then time + beatDuration p.bpm * 2
               else time + beatDuration p.bpm / 2 }],
         acc.2 + 2)
      else (acc.1, acc.2 + 1))
    ([], cur)

/-- Samples per channel of the reverb impulse buffer (line 22). -/
def impulseLen : Nat := 2 * sampleRate

/-- Random draws consumed filling the 2-channel impulse buffer. -/
def impulseDraws : Nat := 2 * impulseLen

/-- The audio graph `generateAudioPreview` hands to `startRendering`:
the effect routing flags and, for each node whose output can reach the
destination, its content.  The impulse buffer is always filled (consuming
the first `impulseDraws` stream values) but is connected to the
destination only when reverb is enabled, so it is recorded only then; the
rendered sample buffer is a deterministic function of this graph. -/
@[ext]
structure RenderOutput where
  reverbOn : Bool
  delayOn : Bool
  impulse : Option (Nat → Nat → ℚ)
  drums : Option (List DrumEvent)
  harmony : Option (List OscEvent)
  bass : Option (List OscEvent)
  melody : Option (List MelodyEvent)

/-- One render of `generateAudioPreview` for a given description and
`Math.random()` stream: parameter extraction, impulse fill (channel `ch`,
sample `j` is `(random*2-1) * (1 - j/impulseLen)^2`), then the four layer
builders guarded as in lines 223–234, consuming the stream in source
order (impulse, drums, melody; harmony and bass draw nothing). -/
def renderGraph (description : String) (s : RandStream) : RenderOutput :=
  let p := parse description
  let impulseFun : Nat → Nat → ℚ := fun ch j =>
    (2 * s (ch * impulseLen + j) - 1) * (1 - (j : ℚ) / (impulseLen : ℚ)) ^ 2
  -- the random cursor after the drums layer ran (or did not run): harmony
  -- and bass draw nothing, so this is where the melody layer reads from
  let melodyCur :=
    if p.enableDrums then (drumEvents p s impulseDraws).2 else impulseDraws
  { reverbOn := p.enableReverb
    delayOn := p.enableDelay
    impulse := if p.enableReverb then some impulseFun else none
    drums := if p.enableDrums then some (drumEvents p s impulseDraws).1 else none
    harmony := if p.enableHarmony then some (harmonyEvents p) else none
    bass := if p.enableBass then some (bassEvents p) else none
    melody :=
      if p.enableMelody then some (melodyEvents p s melodyCur).1 else none }

/-! ## WAV encoding (`bufferToWav`, lines 245–283) -/

/-- The slice of a WebAudio `AudioBuffer` that `bufferToWav` reads. -/
structure AudioBuffer where
  numberOfChannels : Nat
  length : Nat
  sampleRate : Nat
  channelData : Nat → Nat → ℚ

/-- Models `writeString`: the ASCII codes of a tag (lines 252–256). -/
def asciiBytes (s : String) : List Nat :=
  s.data.map Char.toNat

/-- Models `view.setUint16(_, n, true)`: the low 16 bits, little endian. -/
def u16le (n : Nat) : List Nat :=
  [n % 256, n / 256 % 256]

/-- Models `view.setUint32(_, n, true)`: the low 32 bits, little endian. -/
def u32le (n : Nat) : List Nat :=
  [n % 256, n / 256 % 256, n / 65536 % 256, n / 16777216 % 256]

/-- Truncation toward zero, as the ECMAScript `ToInteger` conversion that
`DataView.setInt16` applies to its argument. -/
def truncQ (q : ℚ) : Int :=
  if q < 0 then ⌈q⌉ else ⌊q⌋

/-- Models `Math.max(-1, Math.min(1, sample))` (line 275). -/
def clampSample (x : ℚ) : ℚ :=
  max (-1) (min 1 x)

/-- Lines 275–276: clamp, then scale negatives by 32768 and
non-negatives by 32767; the stored integer is the truncation. -/
def pcmOfSample (x : ℚ) : Int :=
  let sample := clampSample x
  truncQ (if sample < 0 then sample * 32768 else sample * 32767)

/-- Models `view.setInt16(_, v, true)`: two's-complement low 16 bits, little
endian. -/
def i16le (v : Int) : List Nat :=
  [(v % 65536).toNat % 256, (v % 65536).toNat / 256]

/-- The 44 header bytes written at offsets 0–43 (lines 258–270). -/
def wavHeader (numOfChan length sampleRate : Nat) : List Nat :=
  asciiBytes "RIFF" ++ u32le (36 + length * numOfChan * 2) ++
  asciiBytes "WAVE" ++ asciiBytes "fmt " ++ u32le 16 ++ u16le 1 ++
  u16le numOfChan ++ u32le sampleRate ++ u32le (sampleRate * 2 * numOfChan) ++
  u16le (numOfChan * 2) ++ u16le 16 ++ asciiBytes "data" ++
  u32le (length * numOfChan * 2)

/-- The interleaved PCM data written from offset 44 (lines 272–280). -/
def wavData (buffer : AudioBuffer) : List Nat :=
  (List.range buffer.length).flatMap (fun i =>
    (List.range buffer.numberOfChannels).flatMap (fun channel =>
      i16le (pcmOfSample (buffer.channelData channel i))))

/-- Models `bufferToWav`: the encoded byte sequence (header then data; the
sequential writes at offsets 0–43 and 44– make it this concatenation). -/
def bufferToWav (buffer : AudioBuffer) : List Nat :=
  wavHeader buffer.numberOfChannels buffer.length buffer.sampleRate ++
  wavData buffer

/-- Little-endian 16-bit read-back from an encoded byte list. -/
def readU16 (bytes : List Nat) (off : Nat) : Nat :=
  bytes.getD off 0 + 256 * bytes.getD (off + 1) 0

/-- Little-endian 32-bit read-back from an encoded byte list. -/
def readU32 (bytes : List Nat) (off : Nat) : Nat :=
  bytes.getD off 0 + 256 * bytes.getD (off + 1) 0 +
  65536 * bytes.getD (off + 2) 0 + 16777216 * bytes.getD (off + 3) 0

/-! ## Concrete inputs used in the analyses -/

/-- The worked example input of the specification (§8). -/
def exampleDescription : String :=
  "A very slow, dragging 60 bpm tempo in a dissonant, atonal scale... music box with heavy reverb and delay... low rumbling bass synth drones... sparse piano chords. No drums..."

/-- A `Math.random()` stream returning the same value on every call. -/
def constStream (q : ℚ) : RandStream := fun _ => q

/-- A description enabling drums, harmony and bass but not melody. -/
def descDrumsNoMelody : String := "drum chord bass"

/-- A description enabling drums (in heartbeat mode), harmony and bass
but not melody. -/
def descHeartbeat : String := "heartbeat chord bass"

/-- Probe into a render graph: the first noise sample of the drum event
scheduled on beat 1 (a snare unless heartbeat mode), or 37 when absent. -/
def snareProbe (o : RenderOutput) : ℚ :=
  match o.drums with
  | some evs =>
    match evs.getD 1 (DrumEvent.kick 0) with
    | DrumEvent.snare _ noise => noise 0
    | DrumEvent.kick _ => 37
  | none => 37

/-- A buffer whose channel count exceeds the 16-bit header field. -/
def overflowBuffer : AudioBuffer :=
  { numberOfChannels := 65537
    length := 0
    sampleRate := 44100
    channelData := fun _ _ => 0 }

/-- A small silent stereo buffer. -/
def smallBuffer : AudioBuffer :=
  { numberOfChannels := 2
    length := 3
    sampleRate := 44100
    channelData := fun _ _ => 0 }

end AudioGen

namespace AudioGen

/-! ## Supporting lemmas -/

/-- The count `numBeats` agrees with the rational loop bound of line 81. -/
theorem numBeats_iterates (bpm i : Nat) :
    i < numBeats bpm ↔ (i : ℚ) < (duration : ℚ) / beatDuration bpm := by
  unfold numBeats duration beatDuration
  rcases Nat.eq_zero_or_pos bpm with h | h
  · subst h
    simp
  · have hb : (0 : ℚ) < (bpm : ℚ) := by exact_mod_cast h
    rw [div_div_eq_mul_div, lt_div_iff (by norm_num : (0 : ℚ) < 60)]
    push_cast
    constructor
    · intro hi
      have h6 : 6 * i < bpm := by omega
      have h6q : (6 : ℚ) * i < bpm := by exact_mod_cast h6
      nlinarith
    · intro hi
      have h6q : (6 : ℚ) * i < (bpm : ℚ) := by nlinarith
      have h6 : 6 * i < bpm := by exact_mod_cast h6q
      omega

/-- The count `numHalfBeats` agrees with the rational loop bound of line 186. -/
theorem numHalfBeats_iterates (bpm i : Nat) :
    i < numHalfBeats bpm ↔ (i : ℚ) < (duration : ℚ) / (beatDuration bpm / 2) := by
  unfold numHalfBeats duration beatDuration
  rcases Nat.eq_zero_or_pos bpm with h | h
  · subst h
    simp
  · have hb : (0 : ℚ) < (bpm : ℚ) := by exact_mod_cast h
    rw [div_div_eq_mul_div, div_div_eq_mul_div,
      lt_div_iff (by norm_num : (0 : ℚ) < 60)]
    push_cast
    constructor
    · intro hi
      have h3 : 3 * i < bpm := by omega
      have h3q : (3 : ℚ) * i < bpm := by exact_mod_cast h3
      nlinarith
    · intro hi
      have h3q : (3 : ℚ) * i < (bpm : ℚ) := by nlinarith
      have h3 : 3 * i < bpm := by exact_mod_cast h3q
      omega

/-- The header bytes, written out: computing through the nested list
appends once keeps the later offset lookups cheap. -/
theorem wavHeader_bytes (nc len sr : Nat) :
    wavHeader nc len sr =
      [82, 73, 70, 70,
       (36 + len * nc * 2) % 256, (36 + len * nc * 2) / 256 % 256,
       (36 + len * nc * 2) / 65536 % 256, (36 + len * nc * 2) / 16777216 % 256,
       87, 65, 86, 69, 102, 109, 116, 32,
       16, 0, 0, 0, 1, 0,
       nc % 256, nc / 256 % 256,
       sr % 256, sr / 256 % 256, sr / 65536 % 256, sr / 16777216 % 256,
       sr * 2 * nc % 256, sr * 2 * nc / 256 % 256,
       sr * 2 * nc / 65536 % 256, sr * 2 * nc / 16777216 % 256,
       nc * 2 % 256, nc * 2 / 256 % 256,
       16, 0,
       100, 97, 116, 97,
       len * nc * 2 % 256, len * nc * 2 / 256 % 256,
       len * nc * 2 / 65536 % 256, len * nc * 2 / 16777216 % 256] := rfl

/-- Every PCM sample occupies exactly 2 bytes, so the data section has
`length * numberOfChannels * 2` bytes. -/
theorem wavData_length (buffer : AudioBuffer) :
    (wavData buffer).length = buffer.length * buffer.numberOfChannels * 2 := by
  unfold wavData
  rw [List.length_flatMap]
  have hfc : (List.length ∘ fun i =>
      (List.range buffer.numberOfChannels).flatMap fun channel =>
        i16le (pcmOfSample (buffer.channelData channel i))) =
      Function.const Nat (buffer.numberOfChannels * 2) := by
    funext i
    show ((List.range buffer.numberOfChannels).flatMap fun channel =>
      i16le (pcmOfSample (buffer.channelData channel i))).length = _
    rw [List.length_flatMap]
    have hc : (List.length ∘ fun channel =>
        i16le (pcmOfSample (buffer.channelData channel i))) =
        Function.const Nat 2 := by
      funext c
      rfl
    rw [hc, List.map_const, List.length_range, List.sum_replicate, smul_eq_mul]
    rfl
  rw [hfc, List.map_const, List.length_range, List.sum_replicate, smul_eq_mul]
  ring

/-- Byte reads below offset 44 land in the header. -/
theorem bufferToWav_getD_header (buffer : AudioBuffer) (n : Nat) (h : n < 44) :
    (bufferToWav buffer).getD n 0 =
      (wavHeader buffer.numberOfChannels buffer.length
        buffer.sampleRate).getD n 0 := by
  unfold bufferToWav
  refine List.getD_append _ _ _ n ?_
  rw [wavHeader_bytes]
  simpa using h

/-! ## The claims -/

/-- C6: for every description the derived tempo is the first
`(\d+)\s*bpm` match when one exists (overriding the slow/fast keyword
defaults); otherwise 140 when the text contains "fast" or "upbeat",
otherwise 80 when it contains "slow", otherwise 120 (a later keyword
check overrides an earlier one, so "fast"/"upbeat" wins over "slow"). -/
theorem tempo_derivation (desc : String) :
    (parse desc).bpm =
      (match bpmFirstMatch (lowerData desc) with
       | some n => n
       | none =>
         if strIncludes (lowerData desc) "fast" || strIncludes (lowerData desc) "upbeat"
         then 140
         else if strIncludes (lowerData desc) "slow" then 80
         else 120) ∧
    ∀ n, bpmFirstMatch (lowerData desc) = some n → (parse desc).bpm = n := by
  constructor
  · show SynthParams.bpm _ = _
    simp only [parse]
  · intro n hn
    show SynthParams.bpm _ = _
    simp only [parse, hn]

/-- Witness for C6 at a concrete input: "73 bpm" overrides "slow". -/
theorem tempo_derivation_witness : (parse "Slow 73 bpm").bpm = 73 :=
  (tempo_derivation "Slow 73 bpm").2 73 (by decide)

/-- C7: for every description the derived scale is pentatonic
`[0,2,4,7,9]` when "pentatonic" is present, else the dissonant scale
`[0,1,4,5,8,9]` when "dissonant" or "atonal" is present (overriding
minor), else the minor scale `[0,2,3,5,7,8,10]` when "minor" is present,
else the major default `[0,2,4,5,7,9,11]` — the precedence the source's
sequential overrides exhibit. -/
theorem scale_selection (desc : String) :
    (parse desc).scale =
      (if strIncludes (lowerData desc) "pentatonic" then [0, 2, 4, 7, 9]
       else if strIncludes (lowerData desc) "dissonant" ||
           strIncludes (lowerData desc) "atonal" then [0, 1, 4, 5, 8, 9]
       else if strIncludes (lowerData desc) "minor" then [0, 2, 3, 5, 7, 8, 10]
       else [0, 2, 4, 5, 7, 9, 11]) := by
  show SynthParams.scale _ = _
  simp only [parse]

/-- C8: for every description the derived chord progression has exactly
4 chords of exactly 3 semitone offsets; it is the minor progression
`[0,3,7],[8,0,3],[3,7,10],[10,2,5]` iff the text contains "minor" and the
major progression `[0,4,7],[7,11,2],[9,0,4],[5,9,0]` iff it does not. -/
theorem chord_progression_selection (desc : String) :
    (parse desc).chordProgression.length = 4 ∧
    (∀ c ∈ (parse desc).chordProgression, c.length = 3) ∧
    ((parse desc).chordProgression =
        [[0, 3, 7], [8, 0, 3], [3, 7, 10], [10, 2, 5]] ↔
      strIncludes (lowerData desc) "minor" = true) ∧
    ((parse desc).chordProgression =
        [[0, 4, 7], [7, 11, 2], [9, 0, 4], [5, 9, 0]] ↔
      strIncludes (lowerData desc) "minor" = false) := by
  have hprog : (parse desc).chordProgression =
      if strIncludes (lowerData desc) "minor" then
        [[0, 3, 7], [8, 0, 3], [3, 7, 10], [10, 2, 5]]
      else [[0, 4, 7], [7, 11, 2], [9, 0, 4], [5, 9, 0]] := by
    show SynthParams.chordProgression _ = _
    simp only [parse]
  cases hmi : strIncludes (lowerData desc) "minor" <;>
    simp [hprog, hmi]

/-- C2 counterexample: on the specification's worked example input the
claimed `enableDrums == false` fails — the substring rule matches "drum"
inside "No drums", so the parser enables the percussion layer. -/
theorem example_description_drums_claim_false :
    ¬ ((parse exampleDescription).enableDrums = false) := by decide

/-- C2 amended: parsing the worked example yields tempo 60, reverb and
delay on, the dissonant scale, melody/bass/harmony enabled — and
`enableDrums = true` (not `false` as claimed), since "No drums" contains
the substring "drum". -/
theorem example_description_parse :
    (parse exampleDescription).bpm = 60 ∧
    (parse exampleDescription).enableDrums = true ∧
    (parse exampleDescription).enableReverb = true ∧
    (parse exampleDescription).enableDelay = true ∧
    (parse exampleDescription).scale = [0, 1, 4, 5, 8, 9] ∧
    (parse exampleDescription).enableMelody = true ∧
    (parse exampleDescription).enableBass = true ∧
    (parse exampleDescription).enableHarmony = true := by decide

/-- C3 counterexample: for the harmony-enabled description "warm pad"
(no "string"), the one chord note with offset 5 (the chord-3 root of the
major progression) is rendered by 3 unison oscillators, not 1: the
source iterates over `[-0, 0, 0]` and its skip condition
`detune === 0 && detuneAmount !== 0` never fires when `detuneAmount`
is 0. -/
theorem harmony_unison_count_claim_false :
    (parse "warm pad").hasString = false ∧
    ((harmonyEvents (parse "warm pad")).filter
        (fun e => e.semitone == 5)).length = 3 ∧
    ¬ (((harmonyEvents (parse "warm pad")).filter
        (fun e => e.semitone == 5)).length = 1) := by decide

/-- C3 amended: every chord note is rendered by exactly 3 oscillators,
all at detune 0, when the description does not contain "string", and by
exactly 2 oscillators — one at -5 and one at +5 cents, the 0-detune
member of the trio being skipped — when "string" is present. -/
theorem harmony_oscillators_per_note (desc : String) (time : ℚ)
    (noteOffset : Int) :
    (harmonyNoteOscs (parse desc) time noteOffset).length =
      (if (parse desc).hasString then 2 else 3) ∧
    (harmonyNoteOscs (parse desc) time noteOffset).map OscEvent.detune =
      (if (parse desc).hasString then [-5, 5] else [0, 0, 0]) := by
  cases hs : (parse desc).hasString <;>
    simp [harmonyNoteOscs, harmonyDetunes, hs]

/-- C5: for every buffer and every float sample in it, the encoder
clamps the sample to [-1, 1], converts non-negative samples by ×32767 and
negative ones by ×32768, and the resulting PCM integer lies in
[-32768, 32767]. -/
theorem pcm_sample_range (buffer : AudioBuffer) (channel i : Nat) :
    -1 ≤ clampSample (buffer.channelData channel i) ∧
    clampSample (buffer.channelData channel i) ≤ 1 ∧
    pcmOfSample (buffer.channelData channel i) =
      truncQ (if clampSample (buffer.channelData channel i) < 0
              then clampSample (buffer.channelData channel i) * 32768
              else clampSample (buffer.channelData channel i) * 32767) ∧
    -32768 ≤ pcmOfSample (buffer.channelData channel i) ∧
    pcmOfSample (buffer.channelData channel i) ≤ 32767 := by
  set x := buffer.channelData channel i with hx
  have h1 : -1 ≤ clampSample x := le_max_left _ _
  have h2 : clampSample x ≤ 1 := max_le (by norm_num) (min_le_left _ _)
  refine ⟨h1, h2, rfl, ?_⟩
  simp only [pcmOfSample, truncQ]
  by_cases hneg : clampSample x < 0
  · have hv : clampSample x * 32768 < 0 := by nlinarith
    have hlo : (-32768 : ℚ) ≤ clampSample x * 32768 := by nlinarith
    rw [if_pos hneg, if_pos hv]
    constructor
    · calc (-32768 : ℤ) = ⌈((-32768 : ℤ) : ℚ)⌉ := (Int.ceil_intCast _).symm
        _ ≤ ⌈clampSample x * 32768⌉ := Int.ceil_le_ceil (by push_cast; linarith)
    · calc ⌈clampSample x * 32768⌉ ≤ ⌈(0 : ℚ)⌉ := Int.ceil_le_ceil (le_of_lt hv)
        _ ≤ 32767 := by norm_num [Int.ceil_zero]
  · have h0 : (0 : ℚ) ≤ clampSample x := le_of_not_lt hneg
    have h0m : (0 : ℚ) ≤ clampSample x * 32767 := by nlinarith
    have hv : ¬ (clampSample x * 32767 < 0) := by nlinarith
    have hhi : clampSample x * 32767 ≤ 32767 := by nlinarith
    rw [if_neg hneg, if_neg hv]
    constructor
    · calc (-32768 : ℤ) ≤ ⌊(0 : ℚ)⌋ := by norm_num [Int.floor_zero]
        _ ≤ ⌊clampSample x * 32767⌋ := Int.floor_le_floor h0m
    · calc ⌊clampSample x * 32767⌋ ≤ ⌊((32767 : ℤ) : ℚ)⌋ :=
          Int.floor_le_floor (by push_cast; linarith)
        _ = 32767 := Int.floor_intCast _

/-- C4: for every buffer whose dimensions fit the fixed header fields
(as every rendered buffer does: 2 channels, 441000 samples, 44100 Hz),
the encoding's total length is `44 + dataBytes` with
`dataBytes = totalSamples * numChannels * 2`, the chunk-size field is
`36 + dataBytes`, the four literal tags sit at offsets 0, 8, 12 and 36,
and the remaining fields are fmtChunkSize 16, audioFormat 1, the channel
count, the sample rate, byteRate `= sampleRate * numChannels * 2`,
blockAlign `= numChannels * 2`, and bitsPerSample 16 — all little
endian. -/
theorem wav_header_contract (buffer : AudioBuffer)
    (hch : buffer.numberOfChannels * 2 < 65536)
    (hsr : buffer.sampleRate < 4294967296)
    (hbr : buffer.sampleRate * 2 * buffer.numberOfChannels < 4294967296)
    (hsz : 36 + buffer.length * buffer.numberOfChannels * 2 < 4294967296) :
    (bufferToWav buffer).length =
      44 + buffer.length * buffer.numberOfChannels * 2 ∧
    readU32 (bufferToWav buffer) 40 =
      buffer.length * buffer.numberOfChannels * 2 ∧
    readU32 (bufferToWav buffer) 4 =
      36 + buffer.length * buffer.numberOfChannels * 2 ∧
    (bufferToWav buffer).take 4 = asciiBytes "RIFF" ∧
    ((bufferToWav buffer).drop 8).take 4 = asciiBytes "WAVE" ∧
    ((bufferToWav buffer).drop 12).take 4 = asciiBytes "fmt " ∧
    ((bufferToWav buffer).drop 36).take 4 = asciiBytes "data" ∧
    readU32 (bufferToWav buffer) 16 = 16 ∧
    readU16 (bufferToWav buffer) 20 = 1 ∧
    readU16 (bufferToWav buffer) 22 = buffer.numberOfChannels ∧
    readU32 (bufferToWav buffer) 24 = buffer.sampleRate ∧
    readU32 (bufferToWav buffer) 28 =
      buffer.sampleRate * buffer.numberOfChannels * 2 ∧
    readU16 (bufferToWav buffer) 32 = buffer.numberOfChannels * 2 ∧
    readU16 (bufferToWav buffer) 34 = 16 := by
  have hsplit : bufferToWav buffer =
      wavHeader buffer.numberOfChannels buffer.length buffer.sampleRate ++
        wavData buffer := rfl
  have hb := bufferToWav_getD_header buffer
  refine ⟨?_, ?_, ?_, ?_, ?_, ?_, ?_, ?_, ?_, ?_, ?_, ?_, ?_, ?_⟩
  · rw [hsplit, List.length_append, wavHeader_bytes, wavData_length]
    simp
  · show (bufferToWav buffer).getD 40 0 + 256 * (bufferToWav buffer).getD 41 0 +
      65536 * (bufferToWav buffer).getD 42 0 +
      16777216 * (bufferToWav buffer).getD 43 0 = _
    rw [hb 40 (by norm_num), hb 41 (by norm_num), hb 42 (by norm_num),
      hb 43 (by norm_num), wavHeader_bytes]
    show buffer.length * buffer.numberOfChannels * 2 % 256 +
      256 * (buffer.length * buffer.numberOfChannels * 2 / 256 % 256) +
      65536 * (buffer.length * buffer.numberOfChannels * 2 / 65536 % 256) +
      16777216 * (buffer.length * buffer.numberOfChannels * 2 / 16777216 % 256) = _
    omega
  · show (bufferToWav buffer).getD 4 0 + 256 * (bufferToWav buffer).getD 5 0 +
      65536 * (bufferToWav buffer).getD 6 0 +
      16777216 * (bufferToWav buffer).getD 7 0 = _
    rw [hb 4 (by norm_num), hb 5 (by norm_num), hb 6 (by norm_num),
      hb 7 (by norm_num), wavHeader_bytes]
    show (36 + buffer.length * buffer.numberOfChannels * 2) % 256 +
      256 * ((36 + buffer.length * buffer.numberOfChannels * 2) / 256 % 256) +
      65536 * ((36 + buffer.length * buffer.numberOfChannels * 2) / 65536 % 256) +
      16777216 *
        ((36 + buffer.length * buffer.numberOfChannels * 2) / 16777216 % 256) = _
    omega
  · rw [hsplit, wavHeader_bytes, List.take_append_of_le_length (by simp)]
    rfl
  · rw [hsplit, wavHeader_bytes, List.drop_append_of_le_length (by simp),
      List.take_append_of_le_length (by simp [List.length_drop])]
    rfl
  · rw [hsplit, wavHeader_bytes, List.drop_append_of_le_length (by simp),
      List.take_append_of_le_length (by simp [List.length_drop])]
    rfl
  · rw [hsplit, wavHeader_bytes, List.drop_append_of_le_length (by simp),
      List.take_append_of_le_length (by simp [List.length_drop])]
    rfl
  · show (bufferToWav buffer).getD 16 0 + 256 * (bufferToWav buffer).getD 17 0 +
      65536 * (bufferToWav buffer).getD 18 0 +
      16777216 * (bufferToWav buffer).getD 19 0 = _
    rw [hb 16 (by norm_num), hb 17 (by norm_num), hb 18 (by norm_num),
      hb 19 (by norm_num), wavHeader_bytes]
    rfl
  · show (bufferToWav buffer).getD 20 0 + 256 * (bufferToWav buffer).getD 21 0 = _
    rw [hb 20 (by norm_num), hb 21 (by norm_num), wavHeader_bytes]
    rfl
  · show (bufferToWav buffer).getD 22 0 + 256 * (bufferToWav buffer).getD 23 0 = _
    rw [hb 22 (by norm_num), hb 23 (by norm_num), wavHeader_bytes]
    show buffer.numberOfChannels % 256 +
      256 * (buffer.numberOfChannels / 256 % 256) = _
    omega
  · show (bufferToWav buffer).getD 24 0 + 256 * (bufferToWav buffer).getD 25 0 +
      65536 * (bufferToWav buffer).getD 26 0 +
      16777216 * (bufferToWav buffer).getD 27 0 = _
    rw [hb 24 (by norm_num), hb 25 (by norm_num), hb 26 (by norm_num),
      hb 27 (by norm_num), wavHeader_bytes]
    show buffer.sampleRate % 256 + 256 * (buffer.sampleRate / 256 % 256) +
      65536 * (buffer.sampleRate / 65536 % 256) +
      16777216 * (buffer.sampleRate / 16777216 % 256) = _
    omega
  · show (bufferToWav buffer).getD 28 0 + 256 * (bufferToWav buffer).getD 29 0 +
      65536 * (bufferToWav buffer).getD 30 0 +
      16777216 * (bufferToWav buffer).getD 31 0 = _
    rw [hb 28 (by norm_num), hb 29 (by norm_num), hb 30 (by norm_num),
      hb 31 (by norm_num), wavHeader_bytes]
    show buffer.sampleRate * 2 * buffer.numberOfChannels % 256 +
      256 * (buffer.sampleRate * 2 * buffer.numberOfChannels / 256 % 256) +
      65536 * (buffer.sampleRate * 2 * buffer.numberOfChannels / 65536 % 256) +
      16777216 *
        (buffer.sampleRate * 2 * buffer.numberOfChannels / 16777216 % 256) = _
    have h2 : buffer.sampleRate * 2 * buffer.numberOfChannels =
        buffer.sampleRate * buffer.numberOfChannels * 2 := by ring
    omega
  · show (bufferToWav buffer).getD 32 0 + 256 * (bufferToWav buffer).getD 33 0 = _
    rw [hb 32 (by norm_num), hb 33 (by norm_num), wavHeader_bytes]
    show buffer.numberOfChannels * 2 % 256 +
      256 * (buffer.numberOfChannels * 2 / 256 % 256) = _
    omega
  · show (bufferToWav buffer).getD 34 0 + 256 * (bufferToWav buffer).getD 35 0 = _
    rw [hb 34 (by norm_num), hb 35 (by norm_num), wavHeader_bytes]
    rfl

/-- Witness for C4 at a concrete small silent buffer. -/
theorem wav_header_contract_witness :
    (bufferToWav smallBuffer).length = 44 + 3 * 2 * 2 ∧
    readU32 (bufferToWav smallBuffer) 40 = 3 * 2 * 2 ∧
    readU16 (bufferToWav smallBuffer) 22 = 2 ∧
    readU32 (bufferToWav smallBuffer) 24 = 44100 := by
  obtain ⟨h1, h2, -, -, -, -, -, -, -, h10, h11, -, -, -⟩ :=
    wav_header_contract smallBuffer (by decide) (by decide) (by decide)
      (by decide)
  exact ⟨h1, h2, h10, h11⟩

/-- C9 counterexample: on a buffer with 65537 channels — beyond the
16-bit channel-count field — `bufferToWav` does not signal any error: it
returns an ordinary 44-byte encoding whose channel-count field silently
wrapped to 1 (the source writes with `DataView.setUint16`, which takes
the value modulo 2^16, and contains no range check or exception path). -/
theorem encoder_overflow_claim_false :
    readU16 (bufferToWav overflowBuffer) 22 = 1 ∧
    overflowBuffer.numberOfChannels ≠ 1 ∧
    (bufferToWav overflowBuffer).length = 44 := by decide

/-- C9 amended: the encoder never signals an error; every header field is
written modulo its width (channel count and block align modulo 2^16,
chunk sizes and data bytes modulo 2^32), silently truncating out-of-range
values, and the fields are exact exactly when the value fits the field. -/
theorem wav_header_truncation (buffer : AudioBuffer) :
    readU16 (bufferToWav buffer) 22 = buffer.numberOfChannels % 65536 ∧
    readU16 (bufferToWav buffer) 32 = buffer.numberOfChannels * 2 % 65536 ∧
    readU32 (bufferToWav buffer) 40 =
      buffer.length * buffer.numberOfChannels * 2 % 4294967296 ∧
    readU32 (bufferToWav buffer) 4 =
      (36 + buffer.length * buffer.numberOfChannels * 2) % 4294967296 := by
  have hb := bufferToWav_getD_header buffer
  refine ⟨?_, ?_, ?_, ?_⟩
  · show (bufferToWav buffer).getD 22 0 + 256 * (bufferToWav buffer).getD 23 0 = _
    rw [hb 22 (by norm_num), hb 23 (by norm_num), wavHeader_bytes]
    show buffer.numberOfChannels % 256 +
      256 * (buffer.numberOfChannels / 256 % 256) = _
    omega
  · show (bufferToWav buffer).getD 32 0 + 256 * (bufferToWav buffer).getD 33 0 = _
    rw [hb 32 (by norm_num), hb 33 (by norm_num), wavHeader_bytes]
    show buffer.numberOfChannels * 2 % 256 +
      256 * (buffer.numberOfChannels * 2 / 256 % 256) = _
    omega
  · show (bufferToWav buffer).getD 40 0 + 256 * (bufferToWav buffer).getD 41 0 +
      65536 * (bufferToWav buffer).getD 42 0 +
      16777216 * (bufferToWav buffer).getD 43 0 = _
    rw [hb 40 (by norm_num), hb 41 (by norm_num), hb 42 (by norm_num),
      hb 43 (by norm_num), wavHeader_bytes]
    show buffer.length * buffer.numberOfChannels * 2 % 256 +
      256 * (buffer.length * buffer.numberOfChannels * 2 / 256 % 256) +
      65536 * (buffer.length * buffer.numberOfChannels * 2 / 65536 % 256) +
      16777216 * (buffer.length * buffer.numberOfChannels * 2 / 16777216 % 256) = _
    omega
  · show (bufferToWav buffer).getD 4 0 + 256 * (bufferToWav buffer).getD 5 0 +
      65536 * (bufferToWav buffer).getD 6 0 +
      16777216 * (bufferToWav buffer).getD 7 0 = _
    rw [hb 4 (by norm_num), hb 5 (by norm_num), hb 6 (by norm_num),
      hb 7 (by norm_num), wavHeader_bytes]
    show (36 + buffer.length * buffer.numberOfChannels * 2) % 256 +
      256 * ((36 + buffer.length * buffer.numberOfChannels * 2) / 256 % 256) +
      65536 * ((36 + buffer.length * buffer.numberOfChannels * 2) / 65536 % 256) +
      16777216 *
        ((36 + buffer.length * buffer.numberOfChannels * 2) / 16777216 % 256) = _
    omega

/-- Every scale the parser can select starts at offset 0. -/
theorem parse_scale_headI (desc : String) : (parse desc).scale.headI = 0 := by
  have h : (parse desc).scale =
      (if strIncludes (lowerData desc) "pentatonic" then [0, 2, 4, 7, 9]
       else if strIncludes (lowerData desc) "dissonant" ||
           strIncludes (lowerData desc) "atonal" then [0, 1, 4, 5, 8, 9]
       else if strIncludes (lowerData desc) "minor" then [0, 2, 3, 5, 7, 8, 10]
       else [0, 2, 4, 5, 7, 9, 11]) := by
    show SynthParams.scale _ = _
    simp only [parse]
  rw [h]
  split_ifs <;> rfl

/-- The harmony layer reads only the chord progression, tempo, waveform,
"string" flag and `scale[0]` from the parameters. -/
theorem harmonyEvents_congr (p q : SynthParams)
    (h1 : p.chordProgression = q.chordProgression) (h2 : p.bpm = q.bpm)
    (h3 : p.harmonyOsc = q.harmonyOsc) (h4 : p.hasString = q.hasString)
    (h5 : p.scale.headI = q.scale.headI) :
    harmonyEvents p = harmonyEvents q := by
  unfold harmonyEvents harmonyNoteOscs harmonyDetunes
  rw [h1, h2, h3, h4, h5]

/-- The bass layer reads only the chord progression, tempo, waveform and
`scale[0]` from the parameters. -/
theorem bassEvents_congr (p q : SynthParams)
    (h1 : p.chordProgression = q.chordProgression) (h2 : p.bpm = q.bpm)
    (h3 : p.bassOsc = q.bassOsc) (h5 : p.scale.headI = q.scale.headI) :
    bassEvents p = bassEvents q := by
  unfold bassEvents
  rw [h1, h2, h3, h5]

/-- C10: every parsed scale has first element 0, and consequently two
descriptions that parse to the same chord progression, tempo, waveforms
and "string" flag — but possibly different scales — produce identical
harmony and bass layer contributions: the scale influences only the
melody layer. -/
theorem scale_head_zero_and_independence (d1 d2 : String)
    (hprog : (parse d1).chordProgression = (parse d2).chordProgression)
    (hbpm : (parse d1).bpm = (parse d2).bpm)
    (hhar : (parse d1).harmonyOsc = (parse d2).harmonyOsc)
    (hstr : (parse d1).hasString = (parse d2).hasString)
    (hbass : (parse d1).bassOsc = (parse d2).bassOsc) :
    (∀ desc : String, (parse desc).scale.headI = 0) ∧
    harmonyEvents (parse d1) = harmonyEvents (parse d2) ∧
    bassEvents (parse d1) = bassEvents (parse d2) := by
  refine ⟨parse_scale_headI, ?_, ?_⟩
  · exact harmonyEvents_congr _ _ hprog hbpm hhar hstr
      (by rw [parse_scale_headI, parse_scale_headI])
  · exact bassEvents_congr _ _ hprog hbpm hbass
      (by rw [parse_scale_headI, parse_scale_headI])

/-- Witness for C10 at two concrete descriptions that differ in scale
(major vs pentatonic) but share all other parameters. -/
theorem scale_head_zero_and_independence_witness :
    (parse "a chord with bass").scale ≠
      (parse "a pentatonic chord with bass").scale ∧
    harmonyEvents (parse "a chord with bass") =
      harmonyEvents (parse "a pentatonic chord with bass") ∧
    bassEvents (parse "a chord with bass") =
      bassEvents (parse "a pentatonic chord with bass") :=
  ⟨by decide,
   (scale_head_zero_and_independence "a chord with bass"
     "a pentatonic chord with bass" (by decide) (by decide) (by decide)
     (by decide) (by decide)).2⟩

/-- C1 counterexample: "drum chord bass" enables drums, harmony and bass
and disables melody, yet two renders with different `Math.random()`
streams produce different audio graphs: the snare noise buffer (line 104)
is freshly random on every render, so the beat-1 snare's first noise
sample is `2·(1/2)−1 = 0` under one stream and `2·(1/4)−1 = −1/2` under
the other. -/
theorem render_determinism_claim_false :
    (parse descDrumsNoMelody).enableDrums = true ∧
    (parse descDrumsNoMelody).enableHarmony = true ∧
    (parse descDrumsNoMelody).enableBass = true ∧
    (parse descDrumsNoMelody).enableMelody = false ∧
    renderGraph descDrumsNoMelody (constStream (1 / 2)) ≠
      renderGraph descDrumsNoMelody (constStream (1 / 4)) := by
  refine ⟨by decide, by decide, by decide, by decide, ?_⟩
  intro h
  have hp := congrArg snareProbe h
  have h1 : snareProbe (renderGraph descDrumsNoMelody (constStream (1 / 2))) =
      2 * constStream (1 / 2) (impulseDraws + 0) - 1 := rfl
  have h2 : snareProbe (renderGraph descDrumsNoMelody (constStream (1 / 4))) =
      2 * constStream (1 / 4) (impulseDraws + 0) - 1 := rfl
  rw [h1, h2] at hp
  simp only [constStream] at hp
  norm_num at hp

/-- C1 amended: the harmony and bass layers are deterministic functions
of the parsed parameters (identical across renders with any two random
streams), but the drums layer is random too whenever a snare plays: its
noise buffer is redrawn per render, as is the reverb impulse.  Repeated
renders of one description are guaranteed to coincide whenever melody is
disabled, reverb is disabled, and drums (if any) run in heartbeat mode,
which suppresses every snare — a sufficient condition for no random
consumer to be connected (not necessary: a slow enough tempo can also
leave the single-beat drum loop snare-free). -/
theorem render_randomness_outside_melody (desc : String)
    (s1 s2 : RandStream) :
    (renderGraph desc s1).harmony = (renderGraph desc s2).harmony ∧
    (renderGraph desc s1).bass = (renderGraph desc s2).bass ∧
    ((parse desc).enableMelody = false → (parse desc).enableReverb = false →
      (parse desc).hasHeartbeat = true →
      renderGraph desc s1 = renderGraph desc s2) := by
  refine ⟨rfl, rfl, ?_⟩
  intro hm hr hh
  have hdrum : ∀ cur : Nat,
      (drumEvents (parse desc) s1 cur).1 = (drumEvents (parse desc) s2 cur).1 := by
    intro cur
    unfold drumEvents
    simp [hh]
  show renderGraph desc s1 = renderGraph desc s2
  simp only [renderGraph]
  ext : 1
  · rfl
  · rfl
  · simp [hr]
  · cases hd : (parse desc).enableDrums
    · simp [hd]
    · simp [hd, hdrum impulseDraws]
  · rfl
  · rfl
  · simp [hm]

/-- Witness for C1 amended at a concrete description with drums (in
heartbeat mode), harmony and bass enabled and melody disabled: two
renders under different random streams coincide. -/
theorem render_randomness_outside_melody_witness :
    (parse descHeartbeat).enableDrums = true ∧
    (parse descHeartbeat).enableHarmony = true ∧
    (parse descHeartbeat).enableBass = true ∧
    (parse descHeartbeat).enableMelody = false ∧
    renderGraph descHeartbeat (constStream (1 / 2)) =
      renderGraph descHeartbeat (constStream (1 / 4)) :=
  ⟨by decide, by decide, by decide, by decide,
   (render_randomness_outside_melody descHeartbeat
     (constStream (1 / 2)) (constStream (1 / 4))).2.2
     (by decide) (by decide) (by decide)⟩

end AudioGen
